import Mathlib

/-!
Shallow embedding of the style-guide-agent repository's orchestration core:

* `TitleStyleFlow` (src/style_guide_gen/crew_flow/flow.py) — the event-driven
  draft / validate / revise loop.  Each Python method becomes a Lean function
  on an explicit `FlowState`; the event dispatch of the surrounding Flow
  framework (`@start` / `@router` / `@listen` decorators) becomes a small-step
  function `step` on a `Config`, and `runFlow` iterates it with fuel.
* `BaselineStyleKnowledgeSource.load_content`
  (src/style_guide_gen/knowledge/db_knowledge.py) — the tiered knowledge
  lookup, over a list model of the SQLite table.
* `StyleGuideCrew.store_final_guide` (src/style_guide_gen/crew_flow/crew.py) —
  the artifact sink, over a list model of `published_style_guides`.

Workers (the writer and validator agents) are opaque in the source; they are
modelled as oracles `Nat → input → Payload`: the value the JSON string
returned by the n-th call to `execute` parses to.  A `Payload` models a JSON
dict restricted to the keys the flow code ever reads (`.get` on a missing key
is `Option.none`).
-/

namespace StyleGuideAgent

/-- JSON dict produced by a worker, restricted to the keys the flow reads.
A `none` field models a key absent from the dict, so `d.get "k", dflt`
becomes `(field).getD dflt`. -/
structure Payload where
  category : Option String
  product_type : Option String
  draft_text : Option String
  pending_text : Option String
  feedback : Option (List String)
deriving DecidableEq, Repr

/-- Final_Title_Guide pydantic model (flow.py lines 22-25). -/
structure Final_Title_Guide where
  category : String
  product_type : String
  final_text : String
deriving DecidableEq, Repr

/-- The `self.state` dict of `TitleStyleFlow` as initialised in `__init__`
(flow.py lines 98-105, 117).  `guidelines` holds the result of
`fetch_generic_title_guidelines(...) or ""`. -/
structure FlowState where
  category : String
  product_type : String
  iteration : Nat
  max_iterations : Nat
  feedback : List String
  draft : Option Payload
  pending : Option Payload
  final_guide : Option Final_Title_Guide
  guidelines : String
deriving DecidableEq, Repr

/-- State set up by `TitleStyleFlow.__init__` (flow.py lines 98-105, 117). -/
def initState (category product_type : String) (max_iterations : Nat)
    (guidelines : String) : FlowState :=
  { category := category
    product_type := product_type
    iteration := 0
    max_iterations := max_iterations
    feedback := []
    draft := none
    pending := none
    final_guide := none
    guidelines := guidelines }

/-- Input dict sent to the writer agent (flow.py lines 126-131 and 171-176). -/
structure WriterInput where
  category : String
  product_type : String
  generic_guidelines : String
  feedback : List String
deriving DecidableEq, Repr

/-- Input dict sent to the validator agent (flow.py lines 145-150, 188-193). -/
structure ValidatorInput where
  category : String
  product_type : String
  draft_text : String
  feedback : List String
deriving DecidableEq, Repr

/-- The `writer_input` built by `start_flow` (flow.py lines 126-131). -/
def writer_input_start (s : FlowState) : WriterInput :=
  { category := s.category
    product_type := s.product_type
    generic_guidelines := s.guidelines
    feedback := [] }

/-- The `writer_input` built by `revise_draft` (flow.py lines 171-176); `fb`
is `self.state['pending'].get("feedback", [])`. -/
def writer_input_revise (s : FlowState) (fb : List String) : WriterInput :=
  { category := s.category
    product_type := s.product_type
    generic_guidelines := s.guidelines
    feedback := fb }

/-- The `validator_input` built by both routers (flow.py lines 145-150 and
188-193): missing keys of the draft dict are replaced by `.get` defaults —
the flow state's category / product_type, and `""` for `draft_text`. -/
def validator_input (s : FlowState) (draft : Payload) : ValidatorInput :=
  { category := draft.category.getD s.category
    product_type := draft.product_type.getD s.product_type
    draft_text := draft.draft_text.getD ""
    feedback := [] }

/-- `TitleStyleFlow.start_flow` (flow.py lines 119-137).  `W` is the writer
call: the parse of `self.title_writer.execute(writer_input)`. -/
def start_flow (s : FlowState) (W : WriterInput → Payload) :
    FlowState × Payload :=
  let s1 := { s with iteration := 1 }
  let draft := W (writer_input_start s1)
  ({ s1 with draft := some draft }, draft)

/-- `TitleStyleFlow.route_draft_to_validation` (flow.py lines 139-159).
`V` is the validator call.  Returns the updated state and the route string:
`"validated"` when `not pending.get("feedback")` (key missing, `null`, or
the empty list), `"needs_revision"` otherwise. -/
def route_draft_to_validation (s : FlowState) (draft : Payload)
    (V : ValidatorInput → Payload) : FlowState × String :=
  let pending := V (validator_input s draft)
  let s1 := { s with pending := some pending }
  if pending.feedback.getD [] = [] then (s1, "validated")
  else (s1, "needs_revision")

/-- `TitleStyleFlow.route_revised_to_validation` (flow.py lines 182-200);
its body is identical to `route_draft_to_validation`. -/
def route_revised_to_validation (s : FlowState) (revised_draft : Payload)
    (V : ValidatorInput → Payload) : FlowState × String :=
  let pending := V (validator_input s revised_draft)
  let s1 := { s with pending := some pending }
  if pending.feedback.getD [] = [] then (s1, "validated")
  else (s1, "needs_revision")

/-- `TitleStyleFlow.revise_draft` (flow.py lines 161-180).  When the cap is
reached it returns `self.state['pending']` without calling the writer;
otherwise it increments the iteration and calls the writer.  The `Bool`
records whether the writer was invoked.  `none` models the `AttributeError`
raised by `self.state['pending'].get(...)` when `pending` is `None` in the
revision branch (never reached from `kickoff`). -/
def revise_draft (s : FlowState) (W : WriterInput → Payload) :
    Option ((FlowState × Option Payload) × Bool) :=
  if s.iteration ≥ s.max_iterations then
    some ((s, s.pending), false)
  else
    s.pending.map fun p =>
      let s1 := { s with iteration := s.iteration + 1 }
      let revised := W (writer_input_revise s1 (p.feedback.getD []))
      (({ s1 with draft := some revised }, some revised), true)

/-- The hardcoded `human_approval = True` of `on_validated`
(flow.py line 210). -/
def human_approval : Bool := true

/-- `TitleStyleFlow.on_validated` (flow.py lines 202-220); `pending` is
`self.state['pending']` (the step function extracts it). -/
def on_validated (s : FlowState) (pending : Payload) : FlowState × String :=
  if human_approval then
    let final : Final_Title_Guide :=
      { category := pending.category.getD s.category
        product_type := pending.product_type.getD s.product_type
        final_text := pending.pending_text.getD "" }
    ({ s with final_guide := some final }, "approved")
  else
    (s, "rejected")

/-- `TitleStyleFlow.on_max_reached` (flow.py lines 222-235). -/
def on_max_reached (s : FlowState) (pending : Payload) : FlowState × String :=
  let final : Final_Title_Guide :=
    { category := pending.category.getD s.category
      product_type := pending.product_type.getD s.product_type
      final_text := "(Partial Draft) " ++ pending.pending_text.getD "" }
  ({ s with final_guide := some final }, "done")

/-- Control position of the event-driven flow between method executions:
which method (or event dispatch) runs next.  `routerDraft` / `routerRevised`
carry the value returned by the routed-from method (the `@router` wiring on
`start_flow` and `revise_draft`); `event` carries a route / return string to
be dispatched through the `@listen` table; `finished` is a string with no
listener (`kickoff` ends); `failed` models an uncaught Python exception. -/
inductive Next where
  | atStart
  | routerDraft (v : Payload)
  | routerRevised (v : Option Payload)
  | event (e : String)
  | finished (r : String)
  | failed
deriving DecidableEq, Repr

/-- One configuration of a flow run: the state dict, the control position,
the number of writer / validator `execute` calls made so far, and the log of
every event string emitted so far. -/
structure Config where
  s : FlowState
  next : Next
  writerCalls : Nat
  validatorCalls : Nat
  events : List String
deriving DecidableEq, Repr

/-- Small-step semantics of one `TitleStyleFlow` run.  Oracles `W` and `V`
give the (parsed) output of the n-th writer / validator call.  The `@listen`
table of flow.py: `"needs_revision" → revise_draft`, `"validated" →
on_validated`, `"max_reached" → on_max_reached`, `"approved" → on_approved`
(which only returns `"done"`); any other string has no listener and the
flow finishes. -/
def step (W : Nat → WriterInput → Payload) (V : Nat → ValidatorInput → Payload)
    (c : Config) : Config :=
  match c.next with
  | .atStart =>
      let r := start_flow c.s (W c.writerCalls)
      { c with s := r.1, next := .routerDraft r.2,
               writerCalls := c.writerCalls + 1 }
  | .routerDraft d =>
      let r := route_draft_to_validation c.s d (V c.validatorCalls)
      { c with s := r.1, next := .event r.2,
               validatorCalls := c.validatorCalls + 1,
               events := c.events ++ [r.2] }
  | .routerRevised none => { c with next := .failed }
  | .routerRevised (some d) =>
      let r := route_revised_to_validation c.s d (V c.validatorCalls)
      { c with s := r.1, next := .event r.2,
               validatorCalls := c.validatorCalls + 1,
               events := c.events ++ [r.2] }
  | .event e =>
      if e = "needs_revision" then
        match revise_draft c.s (W c.writerCalls) with
        | none => { c with next := .failed }
        | some (r, called) =>
            { c with s := r.1, next := .routerRevised r.2,
                     writerCalls := c.writerCalls + called.toNat }
      else if e = "validated" then
        match c.s.pending with
        | none => { c with next := .failed }
        | some p =>
            let r := on_validated c.s p
            { c with s := r.1, next := .event r.2,
                     events := c.events ++ [r.2] }
      else if e = "max_reached" then
        match c.s.pending with
        | none => { c with next := .failed }
        | some p =>
            let r := on_max_reached c.s p
            { c with s := r.1, next := .event r.2,
                     events := c.events ++ [r.2] }
      else if e = "approved" then
        { c with next := .event "done", events := c.events ++ ["done"] }
      else
        { c with next := .finished e }
  | .finished _ => c
  | .failed => c

/-- Configuration at `kickoff`: fresh state, no calls, no events. -/
def initConfig (category product_type : String) (max_iterations : Nat)
    (guidelines : String) : Config :=
  { s := initState category product_type max_iterations guidelines
    next := .atStart
    writerCalls := 0
    validatorCalls := 0
    events := [] }

/-- Configuration after `fuel` steps of a run. -/
def runFlow (W : Nat → WriterInput → Payload)
    (V : Nat → ValidatorInput → Payload)
    (category product_type : String) (max_iterations : Nat)
    (guidelines : String) : Nat → Config
  | 0 => initConfig category product_type max_iterations guidelines
  | n + 1 => step W V (runFlow W V category product_type max_iterations guidelines n)

/-- The run has ended (a return string with no listener was reached). -/
def isFinished (c : Config) : Bool :=
  match c.next with
  | .finished _ => true
  | _ => false

/-- The run has ended and the `"approved"` event was emitted on the way. -/
def flowApproved (c : Config) : Bool :=
  isFinished c && c.events.contains "approved"

/-- The run has ended and the `"max_reached"` event was emitted on the way
(the only path that builds the Exhausted / partial final guide). -/
def flowExhausted (c : Config) : Bool :=
  isFinished c && c.events.contains "max_reached"

/-!
Knowledge resolver: `BaselineStyleKnowledgeSource.load_content`
(src/style_guide_gen/knowledge/db_knowledge.py lines 21-70).  The SQLite
table `baseline_style_guidelines` is modelled as a list of rows;
`cursor.fetchone()` on a `... LIMIT 1` query is `List.find?` with the
query's WHERE predicate.  A SQL NULL in a column is `Option.none`.
-/

/-- One row of the `baseline_style_guidelines` table (only the columns the
queries touch). -/
structure BaselineRow where
  category : String
  product_type : Option String
  guidelines_text : Option String
deriving DecidableEq, Repr

/-- Database model: the rows of `baseline_style_guidelines` in scan order. -/
def BaselineDb := List BaselineRow

/-- Tier 1 query: `WHERE category = ? AND product_type = ? LIMIT 1`. -/
def fetch_exact (db : BaselineDb) (category product_type : String) :
    Option BaselineRow :=
  db.find? fun r => r.category = category ∧ r.product_type = some product_type

/-- Tier 2 query: `WHERE category = ? AND product_type = 'ALL' LIMIT 1`. -/
def fetch_all (db : BaselineDb) (category : String) : Option BaselineRow :=
  db.find? fun r => r.category = category ∧ r.product_type = some "ALL"

/-- Tier 3 query: `WHERE category = ? AND product_type IS NULL LIMIT 1`. -/
def fetch_null (db : BaselineDb) (category : String) : Option BaselineRow :=
  db.find? fun r => r.category = category ∧ r.product_type = none

/-- `BaselineStyleKnowledgeSource.load_content` (db_knowledge.py lines
21-70): try the exact row, else the `'ALL'` row, else the `IS NULL` row;
the returned dict maps the key `baseline_<category>_<product_type>` to
`guidelines or ""` (so a missing row, or a row whose `guidelines_text` is
NULL, yields `""`). -/
def load_content (db : BaselineDb) (category product_type : String) :
    String × String :=
  let guidelines : Option String :=
    match fetch_exact db category product_type with
    | some row_exact => row_exact.guidelines_text
    | none =>
        match fetch_all db category with
        | some row_all => row_all.guidelines_text
        | none =>
            match fetch_null db category with
            | some row_null => row_null.guidelines_text
            | none => none
  ("baseline_" ++ category ++ "_" ++ product_type, guidelines.getD "")

/-- Modelled from the spec's words, for comparison with `load_content`
(refinement check for the tier-priority claim): the first tier whose
matching row has NON-EMPTY content wins; all tiers missing (or matching
only empty content) yields the empty string. -/
def resolveSpec (db : BaselineDb) (category product_type : String) : String :=
  let content := fun (r : Option BaselineRow) =>
    match r with
    | some row => row.guidelines_text.getD ""
    | none => ""
  let t1 := content (fetch_exact db category product_type)
  let t2 := content (fetch_all db category)
  let t3 := content (fetch_null db category)
  if t1 ≠ "" then t1 else if t2 ≠ "" then t2 else if t3 ≠ "" then t3 else ""

/-!
Artifact store: `StyleGuideCrew.store_final_guide`
(src/style_guide_gen/crew_flow/crew.py lines 495-535).  The crew output is
modelled by the two parse sources the code consults: `output.json_dict`
(`none` when falsy — `None` or an empty dict) and the result of attempting
`json.loads(output.raw)` (`none` when that raises).  `FinalData` keeps only
the three keys the code looks up; an absent key is `none`.  The
`published_style_guides` table is a list of rows in insertion order
(timestamp columns carry no information the claims touch and are omitted).
-/

/-- The parsed final payload, restricted to the keys `store_final_guide`
reads; `none` = key absent. -/
structure FinalData where
  title_guide : Option String
  shortDesc_guide : Option String
  longDesc_guide : Option String
deriving DecidableEq, Repr

/-- The crew output object as `store_final_guide` consumes it. -/
structure CrewOutput where
  json_dict : Option FinalData
  raw_parsed : Option FinalData
deriving DecidableEq, Repr

/-- One row of `published_style_guides` (columns the INSERT writes, minus
the two `datetime('now')` timestamps). -/
structure PublishedRow where
  category : String
  product_type : String
  field_name : String
  style_guide_md : String
deriving DecidableEq, Repr

/-- The `self.inputs` dict of `StyleGuideCrew` as `store_final_guide` reads
it (`inputs.get("category","Unspecified")` etc.); `none` = key absent. -/
structure CrewInputs where
  category : Option String
  product_type : Option String
deriving DecidableEq, Repr

/-- The `final_data` computed at the top of `store_final_guide` (crew.py
lines 503-508): `output.json_dict`, else the parse of `output.raw`, else
the empty dict. -/
def final_data_of (output : CrewOutput) : FinalData :=
  match output.json_dict with
  | some d => d
  | none => output.raw_parsed.getD ⟨none, none, none⟩

/-- `StyleGuideCrew.store_final_guide` (crew.py lines 495-535): for each of
the keys `title_guide`, `shortDesc_guide`, `longDesc_guide` present in
`final_data`, INSERT one row into `published_style_guides`; then return the
output object unchanged. -/
def store_final_guide (inputs : CrewInputs) (db : List PublishedRow)
    (output : CrewOutput) : List PublishedRow × CrewOutput :=
  let final_data := final_data_of output
  let category := inputs.category.getD "Unspecified"
  let product_type := inputs.product_type.getD "Unspecified"
  let store_snippet := fun (db : List PublishedRow) (field_key : String)
      (v : Option String) =>
    match v with
    | some snippet_md =>
        db ++ [{ category := category, product_type := product_type,
                 field_name := field_key, style_guide_md := snippet_md }]
    | none => db
  let db1 := store_snippet db "title_guide" final_data.title_guide
  let db2 := store_snippet db1 "shortDesc_guide" final_data.shortDesc_guide
  let db3 := store_snippet db2 "longDesc_guide" final_data.longDesc_guide
  (db3, output)

/-- The rows `store_final_guide` appends for a given parsed payload. -/
def stored_rows (category product_type : String) (d : FinalData) :
    List PublishedRow :=
  (match d.title_guide with
   | some md => [{ category := category, product_type := product_type,
                   field_name := "title_guide", style_guide_md := md }]
   | none => []) ++
  (match d.shortDesc_guide with
   | some md => [{ category := category, product_type := product_type,
                   field_name := "shortDesc_guide", style_guide_md := md }]
   | none => []) ++
  (match d.longDesc_guide with
   | some md => [{ category := category, product_type := product_type,
                   field_name := "longDesc_guide", style_guide_md := md }]
   | none => [])

/-- How many of the three guide keys are present in a parsed payload. -/
def present_count (d : FinalData) : Nat :=
  (if d.title_guide.isSome then 1 else 0) +
  (if d.shortDesc_guide.isSome then 1 else 0) +
  (if d.longDesc_guide.isSome then 1 else 0)

/-!
Concrete worker behaviours and runs used by the scenario claims.
-/

/-- A writer output: a well-formed draft dict. -/
def draftPayload : Payload :=
  { category := some "Fashion", product_type := some "T-Shirts",
    draft_text := some "draft v1", pending_text := none, feedback := none }

/-- A validator output carrying exactly one feedback item. -/
def critiquePayload : Payload :=
  { category := some "Fashion", product_type := some "T-Shirts",
    draft_text := none, pending_text := some "pending v1",
    feedback := some ["too vague"] }

/-- A validator output with an empty feedback list (acceptance). -/
def acceptPayload : Payload :=
  { category := some "Fashion", product_type := some "T-Shirts",
    draft_text := none, pending_text := some "pending final",
    feedback := some [] }

/-- A producer that always returns the same well-formed draft. -/
def constWriter : Nat → WriterInput → Payload := fun _ _ => draftPayload

/-- A critic that always returns one feedback item. -/
def alwaysCritic : Nat → ValidatorInput → Payload := fun _ _ => critiquePayload

/-- A critic that returns one feedback item on its first call and an empty
feedback list on every later call. -/
def onceThenAcceptCritic : Nat → ValidatorInput → Payload :=
  fun k _ => if k = 0 then critiquePayload else acceptPayload

/-- Run with `max_iterations = 1` and an always-objecting critic (the cap = 1
exhaustion scenario). -/
def runCap1 (fuel : Nat) : Config :=
  runFlow constWriter alwaysCritic "Fashion" "T-Shirts" 1 "" fuel

/-- Run with `max_iterations = 2` and a critic that objects once then
accepts (the cap = 2 approval scenario). -/
def runCap2 (fuel : Nat) : Config :=
  runFlow constWriter onceThenAcceptCritic "Fashion" "T-Shirts" 2 "" fuel

/-- The flow is about to dispatch the `"max_reached"` event (the only way
`on_max_reached` can run). -/
def aboutToRunMaxHandler (c : Config) : Bool :=
  c.next = Next.event "max_reached"

/-- Invariant of every reachable configuration of `runCap1`: the run cycles
through the four non-terminal control positions of the cap-hit loop, the
writer was called at most once, and no final guide is ever produced. -/
def LoopInv (c : Config) : Prop :=
  c.s.max_iterations = 1 ∧ c.s.final_guide = none ∧ c.writerCalls ≤ 1 ∧
  ((c.next = Next.atStart ∧ c.s.iteration = 0 ∧ c.writerCalls = 0)
   ∨ (c.next = Next.routerDraft draftPayload ∧ c.s.iteration = 1)
   ∨ (c.next = Next.event "needs_revision" ∧ c.s.iteration = 1 ∧
        c.s.pending = some critiquePayload)
   ∨ (c.next = Next.routerRevised (some critiquePayload) ∧
        c.s.iteration = 1 ∧ c.s.pending = some critiquePayload))

/-- Cap invariant for an arbitrary run with `max_iterations = N`: the stored
iteration count never exceeds `N` and the writer-call count never exceeds
the iteration count. -/
def CapInv (N : Nat) (c : Config) : Prop :=
  c.s.max_iterations = N ∧ c.s.iteration ≤ N ∧
  c.writerCalls ≤ c.s.iteration ∧
  (c.next = Next.atStart → c.s.iteration = 0)

/-- No `"max_reached"` event was ever emitted and none is about to be
dispatched. -/
def NoMaxReached (c : Config) : Prop :=
  c.events.contains "max_reached" = false ∧ aboutToRunMaxHandler c = false

/-- Counterexample database for the tier-priority wording: the exact row
exists but with empty content, while the `'ALL'` row holds non-empty
content. -/
def emptyExactDb : BaselineDb :=
  [{ category := "Fashion", product_type := some "Dresses",
     guidelines_text := some "" },
   { category := "Fashion", product_type := some "ALL",
     guidelines_text := some "all-content" }]

/-- Database holding only the `'ALL'` fallback row. -/
def onlyAllDb : BaselineDb :=
  [{ category := "Fashion", product_type := some "ALL",
     guidelines_text := some "all-content" }]

/-- A worker output dict missing every field the flow reads. -/
def emptyPayload : Payload :=
  { category := none, product_type := none, draft_text := none,
    pending_text := none, feedback := none }

/-- Flow state as initialised for the missing-field scenario. -/
def flowState0 : FlowState := initState "Fashion" "T-Shirts" 3 ""

/-- Crew inputs for the artifact-store witness. -/
def crewInputs0 : CrewInputs :=
  { category := some "Fashion", product_type := some "Dresses" }

/-- A crew output whose structured dict is absent and whose raw text does
not parse as JSON. -/
def unparsedOutput : CrewOutput := { json_dict := none, raw_parsed := none }

/-!
Theorems.
-/

/-- C2: at every Validating step (both routers), an empty critique sequence
is necessary and sufficient for the `"validated"` route — the router returns
`"validated"` iff the parsed validator output's feedback list is empty
(a missing or null `feedback` key counting as empty, exactly as
`not pending.get("feedback")` does) — and the only other possible route is
`"needs_revision"`, so any non-empty feedback list yields
`"needs_revision"`. -/
theorem routers_validate_iff_empty_feedback (s : FlowState) (draft p : Payload) :
    ((route_draft_to_validation s draft (fun _ => p)).2 = "validated" ↔
        p.feedback.getD [] = []) ∧
    ((route_draft_to_validation s draft (fun _ => p)).2 = "validated" ∨
        (route_draft_to_validation s draft (fun _ => p)).2 = "needs_revision") ∧
    ((route_revised_to_validation s draft (fun _ => p)).2 = "validated" ↔
        p.feedback.getD [] = []) ∧
    ((route_revised_to_validation s draft (fun _ => p)).2 = "validated" ∨
        (route_revised_to_validation s draft (fun _ => p)).2 = "needs_revision") := by
  unfold route_draft_to_validation route_revised_to_validation
  by_cases h : p.feedback.getD [] = [] <;> simp [h]

/-- C9: the human-approval step always auto-approves: for every flow state
and every pending payload, `on_validated` stores a final guide built from
the pending draft and returns `"approved"`; the `"rejected"` branch is never
taken. -/
theorem on_validated_always_approves (s : FlowState) (p : Payload) :
    (on_validated s p).2 = "approved" ∧
    (on_validated s p).1.final_guide =
      some { category := p.category.getD s.category
             product_type := p.product_type.getD s.product_type
             final_text := p.pending_text.getD "" } ∧
    ((on_validated s p).2 == "rejected") = false := by
  unfold on_validated human_approval
  simp

/-- C3 counterexample: with an exact-tier row whose content is empty and an
`'ALL'`-tier row with non-empty content, the code returns `""` (it stops at
the first tier that has a row at all), while the claimed rule — first tier
whose match has non-empty content — would return the `'ALL'` content. -/
theorem load_content_counterexample :
    (load_content emptyExactDb "Fashion" "Dresses").2 = "" ∧
    resolveSpec emptyExactDb "Fashion" "Dresses" = "all-content" ∧
    fetch_all emptyExactDb "Fashion" =
      some { category := "Fashion", product_type := some "ALL",
             guidelines_text := some "all-content" } := by
  refine ⟨by decide, by decide, by decide⟩

/-- C3 amended: `load_content` tries the tiers in strict order (exact
category+product_type, then `'ALL'`, then `IS NULL`) and returns the
null-coalesced content of the first tier whose query matches a row — even
when that content is empty — and the empty string, never an error, when no
tier matches. -/
theorem load_content_tier_order (db : BaselineDb) (category product_type : String) :
    (∀ r, fetch_exact db category product_type = some r →
        (load_content db category product_type).2 = r.guidelines_text.getD "") ∧
    (fetch_exact db category product_type = none →
      ∀ r, fetch_all db category = some r →
        (load_content db category product_type).2 = r.guidelines_text.getD "") ∧
    (fetch_exact db category product_type = none →
      fetch_all db category = none →
      ∀ r, fetch_null db category = some r →
        (load_content db category product_type).2 = r.guidelines_text.getD "") ∧
    (fetch_exact db category product_type = none →
      fetch_all db category = none →
      fetch_null db category = none →
        (load_content db category product_type).2 = "") := by
  unfold load_content
  refine ⟨fun r h => ?_, fun h1 r h2 => ?_, fun h1 h2 r h3 => ?_, fun h1 h2 h3 => ?_⟩ <;>
    simp [*]

/-- C3 amended, witnessed at a database holding only the `'ALL'` row. -/
theorem load_content_tier_order_witness :
    (load_content onlyAllDb "Fashion" "Dresses").2 = "all-content" :=
  (load_content_tier_order onlyAllDb "Fashion" "Dresses").2.1 (by decide)
    { category := "Fashion", product_type := some "ALL",
      guidelines_text := some "all-content" } (by decide)

/-- C7 counterexample: a validator output missing every field (no category,
no product_type, no pending_text) is not rejected with an error — the flow
silently substitutes defaults: the routers send the validator a
`draft_text` of `""` and the state's category / product_type, and
`on_validated` builds a final guide with `final_text = ""` and still returns
`"approved"`. -/
theorem missing_fields_defaulted_counterexample :
    validator_input flowState0 emptyPayload =
      { category := "Fashion", product_type := "T-Shirts",
        draft_text := "", feedback := [] } ∧
    (on_validated flowState0 emptyPayload).2 = "approved" ∧
    (on_validated flowState0 emptyPayload).1.final_guide =
      some { category := "Fashion", product_type := "T-Shirts",
             final_text := "" } := by
  refine ⟨by decide, by decide, by decide⟩

/-- C7 amended: for every worker output missing the expected fields, the
flow proceeds with substituted defaults instead of surfacing an error — the
state's category / product_type replace missing keys, the empty string
replaces a missing `draft_text` / `pending_text`, and processing completes
normally with `"approved"`. -/
theorem missing_fields_are_defaulted (s : FlowState) (p : Payload)
    (hc : p.category = none) (hp : p.product_type = none)
    (hd : p.draft_text = none) (ht : p.pending_text = none) :
    validator_input s p =
      { category := s.category, product_type := s.product_type,
        draft_text := "", feedback := [] } ∧
    on_validated s p =
      ({ s with final_guide := some { category := s.category,
                                      product_type := s.product_type,
                                      final_text := "" } }, "approved") := by
  unfold validator_input on_validated human_approval
  simp [hc, hp, hd, ht]

/-- C7 amended, witnessed at the all-fields-missing payload. -/
theorem missing_fields_are_defaulted_witness :
    validator_input flowState0 emptyPayload =
      { category := "Fashion", product_type := "T-Shirts",
        draft_text := "", feedback := [] } :=
  (missing_fields_are_defaulted flowState0 emptyPayload rfl rfl rfl rfl).1

/-- The store step leaves the prior table as a prefix and appends exactly
the rows described by `stored_rows`. -/
lemma store_final_guide_eq (inputs : CrewInputs) (db : List PublishedRow)
    (output : CrewOutput) :
    (store_final_guide inputs db output).1 =
      db ++ stored_rows (inputs.category.getD "Unspecified")
        (inputs.product_type.getD "Unspecified") (final_data_of output) := by
  unfold store_final_guide stored_rows
  rcases final_data_of output with ⟨t, sd, ld⟩
  cases t <;> cases sd <;> cases ld <;> simp

/-- One appended row per guide key present in the parsed payload. -/
lemma stored_rows_length (category product_type : String) (d : FinalData) :
    (stored_rows category product_type d).length = present_count d := by
  unfold stored_rows present_count
  rcases d with ⟨t, sd, ld⟩
  cases t <;> cases sd <;> cases ld <;> simp

/-- C8: the artifact store step is append-only — for every prior table
state, the result is the prior rows followed by freshly inserted rows, one
per key among `title_guide`, `shortDesc_guide`, `longDesc_guide` present in
the parsed output (so zero, one, or many per run), with no update or delete
of prior rows; the in-memory output object is returned unchanged; and when
the structured dict is absent and the raw text does not parse as JSON,
nothing at all is stored. -/
theorem store_final_guide_append_only (inputs : CrewInputs)
    (db : List PublishedRow) (output : CrewOutput) :
    (∃ appended, (store_final_guide inputs db output).1 = db ++ appended ∧
        appended.length = present_count (final_data_of output)) ∧
    (store_final_guide inputs db output).2 = output ∧
    (output.json_dict = none → output.raw_parsed = none →
        (store_final_guide inputs db output).1 = db) := by
  refine ⟨⟨stored_rows (inputs.category.getD "Unspecified")
      (inputs.product_type.getD "Unspecified") (final_data_of output),
      store_final_guide_eq inputs db output, stored_rows_length _ _ _⟩,
    rfl, fun h1 h2 => ?_⟩
  have hfd : final_data_of output = ⟨none, none, none⟩ := by
    unfold final_data_of
    rw [h1, h2]
    rfl
  rw [store_final_guide_eq inputs db output, hfd]
  simp [stored_rows]

/-- C8, witnessed at an unparseable output over an empty table: nothing is
stored and the output object is returned unchanged. -/
theorem store_final_guide_append_only_witness :
    (store_final_guide crewInputs0 [] unparsedOutput).1 = [] ∧
    (store_final_guide crewInputs0 [] unparsedOutput).2 = unparsedOutput :=
  ⟨(store_final_guide_append_only crewInputs0 [] unparsedOutput).2.2 rfl rfl,
   (store_final_guide_append_only crewInputs0 [] unparsedOutput).2.1⟩

/-- Both branches of the first router leave the same state: only `pending`
is written. -/
lemma route_draft_fst (s : FlowState) (d : Payload) (V : ValidatorInput → Payload) :
    (route_draft_to_validation s d V).1 =
      { s with pending := some (V (validator_input s d)) } := by
  unfold route_draft_to_validation
  dsimp only
  split <;> rfl

/-- Both branches of the second router leave the same state: only `pending`
is written. -/
lemma route_revised_fst (s : FlowState) (d : Payload) (V : ValidatorInput → Payload) :
    (route_revised_to_validation s d V).1 =
      { s with pending := some (V (validator_input s d)) } := by
  unfold route_revised_to_validation
  dsimp only
  split <;> rfl

/-- The first router emits one of exactly two route strings. -/
lemma route_draft_snd_cases (s : FlowState) (d : Payload) (V : ValidatorInput → Payload) :
    (route_draft_to_validation s d V).2 = "validated" ∨
    (route_draft_to_validation s d V).2 = "needs_revision" := by
  unfold route_draft_to_validation
  dsimp only
  split <;> simp

/-- The second router emits one of exactly two route strings. -/
lemma route_revised_snd_cases (s : FlowState) (d : Payload) (V : ValidatorInput → Payload) :
    (route_revised_to_validation s d V).2 = "validated" ∨
    (route_revised_to_validation s d V).2 = "needs_revision" := by
  unfold route_revised_to_validation
  dsimp only
  split <;> simp

/-- Closed form of `on_validated` under the hardcoded approval. -/
lemma on_validated_eq (s : FlowState) (p : Payload) :
    on_validated s p =
      ({ s with final_guide := some { category := p.category.getD s.category
                                      product_type := p.product_type.getD s.product_type
                                      final_text := p.pending_text.getD "" } },
       "approved") := by
  unfold on_validated human_approval
  simp

/-- Case analysis of `revise_draft` when it does not crash: either the cap
was reached and nothing changed (writer not called), or the iteration was
incremented and the writer called once. -/
lemma revise_draft_spec (s : FlowState) (W : WriterInput → Payload)
    (r : FlowState × Option Payload) (called : Bool)
    (h : revise_draft s W = some (r, called)) :
    (s.max_iterations ≤ s.iteration ∧ r = (s, s.pending) ∧ called = false) ∨
    (s.iteration < s.max_iterations ∧ called = true ∧
      r.1.iteration = s.iteration + 1 ∧
      r.1.max_iterations = s.max_iterations ∧
      r.1.final_guide = s.final_guide) := by
  unfold revise_draft at h
  split at h
  · left
    rename_i hge
    rw [Option.some.injEq, Prod.ext_iff] at h
    exact ⟨hge, h.1.symm, h.2.symm⟩
  · right
    rename_i hlt
    rcases hp : s.pending with _ | p
    · rw [hp] at h
      simp at h
    · rw [hp] at h
      simp only [Option.map_some', Option.some.injEq, Prod.ext_iff] at h
      refine ⟨by omega, h.2.symm, ?_, ?_, ?_⟩ <;> rw [← h.1.1]

/-- Step reduction: the initial position runs `start_flow` and hands its
result to the first router. -/
lemma step_atStart (W : Nat → WriterInput → Payload)
    (V : Nat → ValidatorInput → Payload) (s : FlowState) (wc vc : Nat)
    (ev : List String) :
    step W V ⟨s, Next.atStart, wc, vc, ev⟩ =
      ⟨(start_flow s (W wc)).1, Next.routerDraft (start_flow s (W wc)).2,
        wc + 1, vc, ev⟩ := rfl

/-- Step reduction: the first router runs and its route string is
dispatched as an event. -/
lemma step_routerDraft (W : Nat → WriterInput → Payload)
    (V : Nat → ValidatorInput → Payload) (s : FlowState) (d : Payload)
    (wc vc : Nat) (ev : List String) :
    step W V ⟨s, Next.routerDraft d, wc, vc, ev⟩ =
      ⟨(route_draft_to_validation s d (V vc)).1,
        Next.event (route_draft_to_validation s d (V vc)).2,
        wc, vc + 1, ev ++ [(route_draft_to_validation s d (V vc)).2]⟩ := rfl

/-- Step reduction: the second router on a `None` payload crashes (the
Python `.get` on `None`). -/
lemma step_routerRevised_none (W : Nat → WriterInput → Payload)
    (V : Nat → ValidatorInput → Payload) (s : FlowState) (wc vc : Nat)
    (ev : List String) :
    step W V ⟨s, Next.routerRevised none, wc, vc, ev⟩ =
      ⟨s, Next.failed, wc, vc, ev⟩ := rfl

/-- Step reduction: the second router runs on the payload returned by
`revise_draft`. -/
lemma step_routerRevised_some (W : Nat → WriterInput → Payload)
    (V : Nat → ValidatorInput → Payload) (s : FlowState) (d : Payload)
    (wc vc : Nat) (ev : List String) :
    step W V ⟨s, Next.routerRevised (some d), wc, vc, ev⟩ =
      ⟨(route_revised_to_validation s d (V vc)).1,
        Next.event (route_revised_to_validation s d (V vc)).2,
        wc, vc + 1, ev ++ [(route_revised_to_validation s d (V vc)).2]⟩ := rfl

/-- Step reduction: the `"needs_revision"` event runs `revise_draft` and
hands its return value to the second router. -/
lemma step_event_needs (W : Nat → WriterInput → Payload)
    (V : Nat → ValidatorInput → Payload) (s : FlowState) (wc vc : Nat)
    (ev : List String) :
    step W V ⟨s, Next.event "needs_revision", wc, vc, ev⟩ =
      (match revise_draft s (W wc) with
       | none => ⟨s, Next.failed, wc, vc, ev⟩
       | some (r, called) =>
           ⟨r.1, Next.routerRevised r.2, wc + called.toNat, vc, ev⟩) := rfl

/-- Step reduction: the `"validated"` event runs `on_validated` on the
stored pending payload. -/
lemma step_event_validated (W : Nat → WriterInput → Payload)
    (V : Nat → ValidatorInput → Payload) (s : FlowState) (wc vc : Nat)
    (ev : List String) :
    step W V ⟨s, Next.event "validated", wc, vc, ev⟩ =
      (match s.pending with
       | none => ⟨s, Next.failed, wc, vc, ev⟩
       | some p =>
           ⟨(on_validated s p).1, Next.event (on_validated s p).2, wc, vc,
             ev ++ [(on_validated s p).2]⟩) := rfl

/-- Step reduction: the `"max_reached"` event runs `on_max_reached` on the
stored pending payload. -/
lemma step_event_max (W : Nat → WriterInput → Payload)
    (V : Nat → ValidatorInput → Payload) (s : FlowState) (wc vc : Nat)
    (ev : List String) :
    step W V ⟨s, Next.event "max_reached", wc, vc, ev⟩ =
      (match s.pending with
       | none => ⟨s, Next.failed, wc, vc, ev⟩
       | some p =>
           ⟨(on_max_reached s p).1, Next.event (on_max_reached s p).2, wc,
             vc, ev ++ [(on_max_reached s p).2]⟩) := rfl

/-- Step reduction: the `"approved"` event runs `on_approved`, which only
returns `"done"`. -/
lemma step_event_approved (W : Nat → WriterInput → Payload)
    (V : Nat → ValidatorInput → Payload) (s : FlowState) (wc vc : Nat)
    (ev : List String) :
    step W V ⟨s, Next.event "approved", wc, vc, ev⟩ =
      ⟨s, Next.event "done", wc, vc, ev ++ ["done"]⟩ := rfl

/-- Step reduction: an event with no listener ends the flow. -/
lemma step_event_other (W : Nat → WriterInput → Payload)
    (V : Nat → ValidatorInput → Payload) (s : FlowState) (e : String)
    (wc vc : Nat) (ev : List String)
    (h1 : e ≠ "needs_revision") (h2 : e ≠ "validated")
    (h3 : e ≠ "max_reached") (h4 : e ≠ "approved") :
    step W V ⟨s, Next.event e, wc, vc, ev⟩ =
      ⟨s, Next.finished e, wc, vc, ev⟩ := by
  simp only [step, if_neg h1, if_neg h2, if_neg h3, if_neg h4]

/-- Step reduction: a finished configuration is absorbing. -/
lemma step_finished (W : Nat → WriterInput → Payload)
    (V : Nat → ValidatorInput → Payload) (s : FlowState) (r : String)
    (wc vc : Nat) (ev : List String) :
    step W V ⟨s, Next.finished r, wc, vc, ev⟩ =
      ⟨s, Next.finished r, wc, vc, ev⟩ := rfl

/-- Step reduction: a failed configuration is absorbing. -/
lemma step_failed (W : Nat → WriterInput → Payload)
    (V : Nat → ValidatorInput → Payload) (s : FlowState) (wc vc : Nat)
    (ev : List String) :
    step W V ⟨s, Next.failed, wc, vc, ev⟩ =
      ⟨s, Next.failed, wc, vc, ev⟩ := rfl

/-- The state returned by `start_flow` in closed form. -/
lemma start_flow_fst (s : FlowState) (W : WriterInput → Payload) :
    (start_flow s W).1 =
      { s with iteration := 1,
               draft := some (W (writer_input_start
                 { s with iteration := 1 })) } := rfl

/-- The cap invariant is preserved by one step of any run whose cap is at
least 1. -/
lemma capInv_step (W : Nat → WriterInput → Payload)
    (V : Nat → ValidatorInput → Payload) (N : Nat) (hN : 1 ≤ N)
    (c : Config) (h : CapInv N c) : CapInv N (step W V c) := by
  obtain ⟨hmax, hiter, hwc, hstart⟩ := h
  rcases c with ⟨s, next, wc, vc, ev⟩
  dsimp only at hmax hiter hwc hstart
  cases next with
  | atStart =>
      have h0 : s.iteration = 0 := hstart rfl
      have hwc0 : wc = 0 := by omega
      rw [step_atStart]
      refine ⟨?_, ?_, ?_, fun hx => by simp at hx⟩
      · simpa [start_flow_fst] using hmax
      · simpa [start_flow_fst] using hN
      · simp [start_flow_fst, hwc0]
  | routerDraft d =>
      rw [step_routerDraft]
      refine ⟨?_, ?_, ?_, fun hx => by simp at hx⟩ <;>
        simp [route_draft_fst, hmax, hiter, hwc]
  | routerRevised v =>
      rcases v with _ | d
      · rw [step_routerRevised_none]
        exact ⟨hmax, hiter, hwc, fun hx => by simp at hx⟩
      · rw [step_routerRevised_some]
        refine ⟨?_, ?_, ?_, fun hx => by simp at hx⟩ <;>
          simp [route_revised_fst, hmax, hiter, hwc]
  | event e =>
      by_cases he1 : e = "needs_revision"
      · subst he1
        rw [step_event_needs]
        rcases hr : revise_draft s (W wc) with _ | ⟨r, called⟩
        · exact ⟨hmax, hiter, hwc, fun hx => by simp at hx⟩
        · rcases revise_draft_spec s (W wc) r called hr with
            ⟨_, hreq, hcalled⟩ | ⟨hlt, hcalled, hit, hm, _⟩
          · subst hcalled
            rw [hreq]
            exact ⟨hmax, hiter, by simpa using hwc, fun hx => by simp at hx⟩
          · subst hcalled
            refine ⟨by rw [hm, hmax], ?_, ?_, fun hx => by simp at hx⟩
            · dsimp only
              omega
            · dsimp only [Bool.toNat_true]
              omega
      · by_cases he2 : e = "validated"
        · subst he2
          rw [step_event_validated]
          rcases hp : s.pending with _ | p
          · exact ⟨hmax, hiter, hwc, fun hx => by simp at hx⟩
          · dsimp only
            rw [on_validated_eq]
            exact ⟨hmax, hiter, hwc, fun hx => by simp at hx⟩
        · by_cases he3 : e = "max_reached"
          · subst he3
            rw [step_event_max]
            rcases hp : s.pending with _ | p
            · exact ⟨hmax, hiter, hwc, fun hx => by simp at hx⟩
            · exact ⟨hmax, hiter, hwc, fun hx => by simp at hx⟩
          · by_cases he4 : e = "approved"
            · subst he4
              rw [step_event_approved]
              exact ⟨hmax, hiter, hwc, fun hx => by simp at hx⟩
            · rw [step_event_other W V s e wc vc ev he1 he2 he3 he4]
              exact ⟨hmax, hiter, hwc, fun hx => by simp at hx⟩
  | finished r => exact ⟨hmax, hiter, hwc, hstart⟩
  | failed => exact ⟨hmax, hiter, hwc, hstart⟩

/-- The cap invariant holds in every reachable configuration. -/
lemma capInv_run (W : Nat → WriterInput → Payload)
    (V : Nat → ValidatorInput → Payload) (category product_type g : String)
    (N : Nat) (hN : 1 ≤ N) :
    ∀ fuel, CapInv N (runFlow W V category product_type N g fuel) := by
  intro fuel
  induction fuel with
  | zero => exact ⟨rfl, Nat.zero_le _, Nat.le_refl _, fun _ => rfl⟩
  | succ n ih => exact capInv_step W V N hN _ ih

/-- C5: the iteration count stored in the flow state never exceeds the
configured cap, and the number of producer (writer) invocations is bounded
by the cap, in every reachable configuration of every run with
`max_iterations = N ≥ 1`; validator calls do not count against the cap —
both routers leave the iteration count untouched. -/
theorem iteration_never_exceeds_cap (W : Nat → WriterInput → Payload)
    (V : Nat → ValidatorInput → Payload) (category product_type g : String)
    (N fuel : Nat) (hN : 1 ≤ N) :
    (runFlow W V category product_type N g fuel).s.iteration ≤ N ∧
    (runFlow W V category product_type N g fuel).writerCalls ≤ N ∧
    (∀ s d v, ((route_draft_to_validation s d v).1).iteration = s.iteration) ∧
    (∀ s d v, ((route_revised_to_validation s d v).1).iteration = s.iteration) := by
  obtain ⟨_, hiter, hwc, _⟩ := capInv_run W V category product_type g N hN fuel
  exact ⟨hiter, Nat.le_trans hwc hiter,
    fun s d v => by rw [route_draft_fst],
    fun s d v => by rw [route_revised_fst]⟩

/-- C5, witnessed at the cap-1 always-critique run after three steps. -/
theorem iteration_never_exceeds_cap_witness :
    (runCap1 3).s.iteration ≤ 1 ∧ (runCap1 3).writerCalls ≤ 1 :=
  ⟨(iteration_never_exceeds_cap constWriter alwaysCritic "Fashion" "T-Shirts"
      "" 1 3 (by decide)).1,
   (iteration_never_exceeds_cap constWriter alwaysCritic "Fashion" "T-Shirts"
      "" 1 3 (by decide)).2.1⟩

/-- Appending a string other than the sought one preserves a negative
containment check. -/
lemma contains_append_one (l : List String) (x e : String)
    (h1 : l.contains e = false) (h2 : x ≠ e) :
    (l ++ [x]).contains e = false := by
  simp only [List.contains, List.elem_eq_mem, decide_eq_false_iff_not,
    List.mem_append, List.mem_singleton] at *
  rintro (h | h)
  · exact h1 h
  · exact h2 h.symm

/-- A configuration whose control position is not the `"max_reached"`
dispatch is not about to run `on_max_reached`. -/
lemma aboutTo_false_of_ne (c : Config)
    (h : c.next ≠ Next.event "max_reached") :
    aboutToRunMaxHandler c = false := by
  simp [aboutToRunMaxHandler, h]

/-- One step of any run neither emits `"max_reached"` nor reaches its
dispatch: the routers only ever return `"validated"` or `"needs_revision"`,
and the listeners only ever return `"approved"`, `"rejected"` or
`"done"`. -/
lemma noMax_step (W : Nat → WriterInput → Payload)
    (V : Nat → ValidatorInput → Payload) (c : Config)
    (h : NoMaxReached c) : NoMaxReached (step W V c) := by
  obtain ⟨hev, hnext⟩ := h
  rcases c with ⟨s, next, wc, vc, ev⟩
  dsimp only at hev
  cases next with
  | atStart =>
      rw [step_atStart]
      exact ⟨hev, aboutTo_false_of_ne _ (by simp)⟩
  | routerDraft d =>
      rw [step_routerDraft]
      rcases route_draft_snd_cases s d (V vc) with he | he <;>
        exact ⟨contains_append_one ev _ _ hev (by simp [he]),
          aboutTo_false_of_ne _ (by simp [he])⟩
  | routerRevised v =>
      rcases v with _ | d
      · rw [step_routerRevised_none]
        exact ⟨hev, aboutTo_false_of_ne _ (by simp)⟩
      · rw [step_routerRevised_some]
        rcases route_revised_snd_cases s d (V vc) with he | he <;>
          exact ⟨contains_append_one ev _ _ hev (by simp [he]),
            aboutTo_false_of_ne _ (by simp [he])⟩
  | event e =>
      by_cases he1 : e = "needs_revision"
      · subst he1
        rw [step_event_needs]
        rcases hr : revise_draft s (W wc) with _ | ⟨r, called⟩
        · exact ⟨hev, aboutTo_false_of_ne _ (by simp)⟩
        · exact ⟨hev, aboutTo_false_of_ne _ (by simp)⟩
      · by_cases he2 : e = "validated"
        · subst he2
          rw [step_event_validated]
          rcases hp : s.pending with _ | p
          · exact ⟨hev, aboutTo_false_of_ne _ (by simp)⟩
          · dsimp only
            rw [on_validated_eq]
            exact ⟨contains_append_one ev _ _ hev (by simp),
              aboutTo_false_of_ne _ (by simp)⟩
        · by_cases he3 : e = "max_reached"
          · subst he3
            simp [aboutToRunMaxHandler] at hnext
          · by_cases he4 : e = "approved"
            · subst he4
              rw [step_event_approved]
              exact ⟨contains_append_one ev _ _ hev (by simp),
                aboutTo_false_of_ne _ (by simp)⟩
            · rw [step_event_other W V s e wc vc ev he1 he2 he3 he4]
              exact ⟨hev, aboutTo_false_of_ne _ (by simp)⟩
  | finished r =>
      rw [step_finished]
      exact ⟨hev, aboutTo_false_of_ne _ (by simp)⟩
  | failed =>
      rw [step_failed]
      exact ⟨hev, aboutTo_false_of_ne _ (by simp)⟩

/-- No reachable configuration of any run has emitted `"max_reached"` or is
about to dispatch it. -/
lemma noMax_run (W : Nat → WriterInput → Payload)
    (V : Nat → ValidatorInput → Payload) (category product_type g : String)
    (N : Nat) : ∀ fuel,
    NoMaxReached (runFlow W V category product_type N g fuel) := by
  intro fuel
  induction fuel with
  | zero => exact ⟨rfl, rfl⟩
  | succ n ih => exact noMax_step W V _ ih

/-- C10: in every run of the flow — any workers, any cap, any inputs, any
number of steps — the `"max_reached"` event is never emitted (the routers
only return `"validated"` or `"needs_revision"`, and `revise_draft` returns
the pending payload rather than an event when the cap is hit), so the
`on_max_reached` handler, the only code that builds the Exhausted / partial
final guide, is never dispatched. -/
theorem max_reached_never_emitted (W : Nat → WriterInput → Payload)
    (V : Nat → ValidatorInput → Payload) (category product_type g : String)
    (N fuel : Nat) :
    ((runFlow W V category product_type N g fuel).events).contains
        "max_reached" = false ∧
    aboutToRunMaxHandler (runFlow W V category product_type N g fuel) =
        false :=
  noMax_run W V category product_type g N fuel

/-- The loop invariant of the cap-1 always-critique run is preserved by one
step: once the cap is hit, the flow cycles between re-dispatching
`"needs_revision"` and re-validating the stale pending payload, never
producing a final guide. -/
lemma loopInv_step (c : Config) (h : LoopInv c) :
    LoopInv (step constWriter alwaysCritic c) := by
  obtain ⟨hmax, hfin, hwc, hcase⟩ := h
  rcases c with ⟨s, next, wc, vc, ev⟩
  dsimp only at hmax hfin hwc
  rcases hcase with ⟨hn, hit, hwc0⟩ | ⟨hn, hit⟩ | ⟨hn, hit, hp⟩ | ⟨hn, hit, hp⟩ <;>
    dsimp only at hn hit <;> subst hn
  · rw [step_atStart]
    dsimp only at hwc0
    subst hwc0
    exact ⟨by simpa [start_flow_fst] using hmax,
      by simpa [start_flow_fst] using hfin, by dsimp only; omega,
      Or.inr (Or.inl ⟨rfl, rfl⟩)⟩
  · rw [step_routerDraft]
    have he : (route_draft_to_validation s draftPayload
        (alwaysCritic vc)).2 = "needs_revision" := rfl
    have hs : (route_draft_to_validation s draftPayload
        (alwaysCritic vc)).1 = { s with pending := some critiquePayload } := rfl
    rw [he, hs]
    exact ⟨by simpa using hmax, by simpa using hfin, hwc,
      Or.inr (Or.inr (Or.inl ⟨rfl, by simpa using hit, rfl⟩))⟩
  · rw [step_event_needs]
    dsimp only at hp
    have hr : revise_draft s (constWriter wc) = some ((s, s.pending), false) := by
      unfold revise_draft
      rw [if_pos (by omega)]
    rw [hr]
    dsimp only
    rw [hp]
    exact ⟨hmax, hfin, by simpa using hwc,
      Or.inr (Or.inr (Or.inr ⟨rfl, hit, hp⟩))⟩
  · rw [step_routerRevised_some]
    have he : (route_revised_to_validation s critiquePayload
        (alwaysCritic vc)).2 = "needs_revision" := rfl
    have hs : (route_revised_to_validation s critiquePayload
        (alwaysCritic vc)).1 = { s with pending := some critiquePayload } := rfl
    rw [he, hs]
    exact ⟨by simpa using hmax, by simpa using hfin, hwc,
      Or.inr (Or.inr (Or.inl ⟨rfl, by simpa using hit, rfl⟩))⟩

/-- Every reachable configuration of the cap-1 always-critique run
satisfies the loop invariant. -/
lemma loopInv_run : ∀ fuel, LoopInv (runCap1 fuel) := by
  intro fuel
  induction fuel with
  | zero => exact ⟨rfl, rfl, by decide, Or.inl ⟨rfl, rfl, rfl⟩⟩
  | succ n ih => exact loopInv_step _ ih

/-- A configuration satisfying the loop invariant is not finished. -/
lemma loopInv_not_finished (c : Config) (h : LoopInv c) :
    isFinished c = false := by
  rcases h with ⟨_, _, _, ⟨hn, _⟩ | ⟨hn, _⟩ | ⟨hn, _⟩ | ⟨hn, _⟩⟩ <;>
    simp [isFinished, hn]

/-- C1 fails on the code: with cap `N = 1` and a critic that always returns
one feedback item, the run never terminates — at every step count the flow
is still active (cycling between re-dispatching `"needs_revision"` and
re-validating the stale pending payload) — even though the producer is
indeed invoked at most `N` times.  The claimed terminal outcomes Approved /
Exhausted are never reached. -/
theorem cap1_run_never_terminates :
    ∀ fuel, isFinished (runCap1 fuel) = false ∧
      (runCap1 fuel).writerCalls ≤ 1 := by
  intro fuel
  obtain ⟨_, _, hwc, _⟩ := loopInv_run fuel
  exact ⟨loopInv_not_finished _ (loopInv_run fuel), hwc⟩

/-- C4 fails on the code: with cap 1 and an always-objecting critic, the
run never reaches the Exhausted outcome, never emits `"max_reached"`, and
never sets any final guide — so no partial-flagged result is ever produced
(the run spins forever instead). -/
theorem cap1_run_never_exhausted :
    ∀ fuel, flowExhausted (runCap1 fuel) = false ∧
      (runCap1 fuel).s.final_guide = none ∧
      ((runCap1 fuel).events).contains "max_reached" = false := by
  intro fuel
  obtain ⟨_, hfin, _, _⟩ := loopInv_run fuel
  refine ⟨?_, hfin, (noMax_run constWriter alwaysCritic "Fashion" "T-Shirts"
    "" 1 fuel).1⟩
  unfold flowExhausted
  rw [loopInv_not_finished _ (loopInv_run fuel)]
  rfl

/-- C6: with cap 2 and a critic that returns exactly one feedback item on
the first Validating call and an empty feedback list on the second, the run
reaches the terminal Approved outcome after exactly 2 producer invocations,
with the accepted pending text stored as the final guide; the configuration
after 7 steps is terminal (all further steps leave it unchanged). -/
theorem cap2_run_approved_after_two_drafts :
    flowApproved (runCap2 7) = true ∧
    (runCap2 7).writerCalls = 2 ∧
    (runCap2 7).s.final_guide =
      some { category := "Fashion", product_type := "T-Shirts",
             final_text := "pending final" } ∧
    ∀ n, runCap2 (7 + n) = runCap2 7 := by
  have habs : step constWriter onceThenAcceptCritic (runCap2 7) =
      runCap2 7 := rfl
  refine ⟨rfl, rfl, rfl, fun n => ?_⟩
  induction n with
  | zero => rfl
  | succ k ih =>
      show step constWriter onceThenAcceptCritic (runCap2 (7 + k)) = runCap2 7
      rw [ih]
      exact habs

end StyleGuideAgent
